import Mathlib

/-!
Verification development for the lazy-rendering PDF page-viewport controller.

The repository contains two Svelte viewer variants sharing one core design:

* the "simple" variant (`src/routes/+page.svelte`): fit-with-cap layout
  (`MAX_WIDTH = 1000`, cap factor `1.5`), no container-resize reaction;
* the "high-quality" variant (the unnamed route file): fit-to-width layout
  (`WIDTH_RATIO = 0.9`), `QUALITY_SCALE = 2` oversampling, a `ResizeObserver`
  driving `handleResize`/`calculatePageDimensions`.

JavaScript numbers are modelled by `ℚ` (all arithmetic in the claims is exact
rational arithmetic); `Math.round` is modelled by `jsRound` below, which is
`⌊x + 1/2⌋`, the half-up rounding `Math.round` performs.  Asynchronous
functions are modelled as small-step machines whose suspension points are the
`await`s of the source, with an environment/scheduler choosing which pending
continuation resumes next.
-/

/-- JavaScript `Math.round`: round half up, `Math.round x = ⌊x + 1/2⌋`. -/
def jsRound (q : ℚ) : ℤ := ⌊q + 1/2⌋

/-- Handler set on `loadingTask.onProgress`, identical in both variants
(`src/routes/+page.svelte` lines 45–49 and the unnamed variant lines 65–69):
`if (progress.total > 0) state.loadingProgress = Math.round((progress.loaded / progress.total) * 100)`;
otherwise `state.loadingProgress` keeps its previous value. -/
def loadingProgressUpdate (prev : ℤ) (loaded total : ℚ) : ℤ :=
  if 0 < total then jsRound (loaded / total * 100) else prev

namespace Simple

/-- Constant `MAX_WIDTH = 1000` (`src/routes/+page.svelte` line 36). -/
def MAX_WIDTH : ℚ := 1000

/-- Per-page scale of the simple variant's `calculatePageDimensions`
(line 81): `Math.min(MAX_WIDTH / viewport.width, 1.5)`. -/
def pageScale (naturalWidth : ℚ) : ℚ :=
  min (MAX_WIDTH / naturalWidth) (3 / 2)

/-- The `width`/`height` a layout pass writes into a page state. -/
structure PageDims where
  width : ℚ
  height : ℚ
  deriving DecidableEq, Repr

/-- Body of the simple variant's `calculatePageDimensions` for one page
(lines 76–86): scale the natural viewport by `pageScale` and store the scaled
width and height.  (`page.getViewport({scale})` returns the natural size
multiplied by `scale`.) -/
def calculatePageDimensions (naturalWidth naturalHeight : ℚ) : PageDims :=
  let scale := pageScale naturalWidth
  ⟨naturalWidth * scale, naturalHeight * scale⟩

/-- The simple variant's layout as seen from the host environment, which
supplies a container width on mount and on resize.  The source
(lines 73–87) reads only `MAX_WIDTH` and the page's natural viewport, so the
container width parameter is in scope but unused. -/
def layoutUnderContainer (_containerWidth naturalWidth naturalHeight : ℚ) :
    ℚ × PageDims :=
  (pageScale naturalWidth, calculatePageDimensions naturalWidth naturalHeight)

/-- A container-size-change notification delivered to the simple variant.
Its `onMount` (lines 144–146) only calls `loadPDF` and registers no
`ResizeObserver`, so the notification never reaches the viewer: no handler
runs and the state is unchanged. -/
def handleContainerResize {σ : Type} (st : σ) (_newWidth : ℚ) : σ := st

end Simple

namespace HQ

/-- Constant `QUALITY_SCALE = 2` (unnamed variant line 43). -/
def QUALITY_SCALE : ℚ := 2

/-- Constant `WIDTH_RATIO = 0.9` (unnamed variant line 44). -/
def WIDTH_RATIO : ℚ := 9 / 10

/-- Scale/width/height triple computed by one iteration of the high-quality
variant's `calculatePageDimensions` (lines 107–117):
`targetWidth = containerWidth * WIDTH_RATIO`, `scale = targetWidth / width`,
then `scaledWidth = width * scale`, `scaledHeight = height * scale`.
No rounding is applied anywhere. -/
def layoutPage (containerWidth naturalWidth naturalHeight : ℚ) : ℚ × ℚ × ℚ :=
  let targetWidth := containerWidth * WIDTH_RATIO
  let scale := targetWidth / naturalWidth
  (scale, naturalWidth * scale, naturalHeight * scale)

/-- An `HTMLCanvasElement` as far as the viewer touches it: the backing
buffer resolution (`canvas.width`/`canvas.height`, lines 138–139) and the
CSS display size (`canvas.style.width`/`height`, lines 142–143). -/
structure Canvas where
  bufWidth : ℚ
  bufHeight : ℚ
  styleWidth : ℚ
  styleHeight : ℚ
  deriving DecidableEq, Repr

/-- The high-quality variant's `PageState` record (lines 9–18), field for
field and in source order. -/
structure PageState where
  pageNum : ℕ
  canvas : Option Canvas
  rendered : Bool
  height : ℚ
  width : ℚ
  scale : ℚ
  actualHeight : ℚ
  actualWidth : ℚ
  deriving DecidableEq, Repr

/-- Default used for out-of-range list reads; reachable traces never hit it. -/
def defaultPage : PageState :=
  { pageNum := 0, canvas := none, rendered := false, height := 0, width := 0,
    scale := 0, actualHeight := 0, actualWidth := 0 }

/-- A pending continuation of one of the variant's `async` functions,
suspended at one of the source's `await` expressions:

* `calcLoop i` — `calculatePageDimensions` suspended at
  `await state.pdfDoc.getPage(i + 1)` (line 100); the loop body for page
  index `i` has not run yet.
* `renderFetch p` — `renderPage` for page index `p`, past its guard and
  suspended at `await state.pdfDoc.getPage(pageState.pageNum)` (line 131).
* `renderRaster p` — `renderPage` for page index `p`, canvas already sized,
  suspended at `await page.render({...}).promise` (lines 152–156); while this
  continuation is pending, a rasterization for page `p` is in flight. -/
inductive Pending
  | calcLoop (i : ℕ)
  | renderFetch (p : ℕ)
  | renderRaster (p : ℕ)
  deriving DecidableEq, Repr

/-- The viewer state of the high-quality variant: the `ViewerState` record
(lines 20–28, with `loading`/`loadingProgress` handled separately by
`loadingProgressUpdate`), the document's per-page natural viewport sizes
(what `getPage(i+1).getViewport({scale: 1.0})` reports), the pending `await`
continuations, and instrumentation (cumulative `page.render` invocations and
the page numbers passed to `console.error` on line 160). -/
structure MState where
  docOpen : Bool
  containerWidth : ℚ
  containerHeight : ℚ
  naturalSizes : List (ℚ × ℚ)
  pages : List PageState
  tasks : List Pending
  rasterizeCalls : ℕ
  errorLog : List ℕ
  deriving DecidableEq, Repr

/-- The synchronous prefix of `renderPage` for the page at index `p`
(line 128): `if (!state.pdfDoc || pageState.rendered || !pageState.canvas)
return;` — otherwise the function suspends at `await getPage`, leaving a
`renderFetch` continuation pending. -/
def callRenderPage (st : MState) (p : ℕ) : MState :=
  let ps := st.pages.getD p defaultPage
  if st.docOpen = false ∨ ps.rendered = true ∨ ps.canvas = none then st
  else { st with tasks := st.tasks ++ [Pending.renderFetch p] }

/-- Model of `handleResize` (lines 49–56): store the new content-box size, then call
`calculatePageDimensions()` (not awaited).  Its synchronous prefix is the
guard on line 97, `if (!state.pdfDoc || !state.containerWidth) return;`
(`!x` on a number is true exactly for `0`, the initial value line 36 and the
value of an unmeasured container); if the guard passes, the function suspends
at the loop's first `await getPage`, leaving a `calcLoop 0` continuation. -/
def handleResize (st : MState) (newWidth newHeight : ℚ) : MState :=
  let st1 := { st with containerWidth := newWidth, containerHeight := newHeight }
  if st1.docOpen = false ∨ st1.containerWidth = 0 then st1
  else { st1 with tasks := st1.tasks ++ [Pending.calcLoop 0] }

/-- Loop body of `calculatePageDimensions` for page index `i`
(lines 101–123), run when the `await getPage(i+1)` of iteration `i`
resolves: store the natural size into `actualWidth`/`actualHeight`, compute
scale and scaled dimensions from the *current* `state.containerWidth`
(line 108 reads it after the `await`), write them back, and — if the page
was rendered and has a canvas — clear `rendered` (line 121) and call
`renderPage` (line 122, whose synchronous guard runs immediately). -/
def calcPageBody (st : MState) (i : ℕ) : MState :=
  let nat := st.naturalSizes.getD i (0, 0)
  let l := layoutPage st.containerWidth nat.1 nat.2
  let ps := st.pages.getD i defaultPage
  let ps1 := { ps with actualWidth := nat.1, actualHeight := nat.2,
                       width := l.2.1, height := l.2.2, scale := l.1 }
  if ps1.rendered = true ∧ ps1.canvas ≠ none then
    callRenderPage
      { st with pages := st.pages.set i { ps1 with rendered := false } } i
  else { st with pages := st.pages.set i ps1 }

/-- Continuation of `renderPage` when `await getPage` resolves successfully
(lines 134–156 up to issuing `page.render`): compute
`renderScale = pageState.scale * QUALITY_SCALE` from the *current* page
state, size the canvas backing buffer to
`getViewport({scale: renderScale})` (the natural size times `renderScale`),
set the CSS size to the current `pageState.width`/`height`, and invoke
`page.render` — one more rasterize call, now in flight. -/
def renderFetchBody (st : MState) (p : ℕ) : MState :=
  let ps := st.pages.getD p defaultPage
  let nat := st.naturalSizes.getD p (0, 0)
  let renderScale := ps.scale * QUALITY_SCALE
  let c : Canvas :=
    { bufWidth := nat.1 * renderScale, bufHeight := nat.2 * renderScale,
      styleWidth := ps.width, styleHeight := ps.height }
  { st with pages := st.pages.set p { ps with canvas := some c },
            rasterizeCalls := st.rasterizeCalls + 1 }

/-- Environment/scheduler events of the event-loop model:

* `resize w h` — a `ResizeObserver` notification delivering the container's
  new content-box size to `handleResize`.
* `visible p` — an `IntersectionObserver` callback entry with
  `isIntersecting` for page index `p` (lines 170–176): calls `renderPage`
  unless `pageState.rendered` is already true (line 172).
* `resumeTask i ok` — the event loop resolves (`ok = true`) or rejects
  (`ok = false`) the promise awaited by the pending continuation `tasks[i]`;
  a rejection inside `renderPage`'s `try` lands in its `catch` (lines
  159–161), which logs the page number and completes normally. -/
inductive Event
  | resize (w h : ℚ)
  | visible (p : ℕ)
  | resumeTask (i : ℕ) (ok : Bool)
  deriving DecidableEq, Repr

/-- One step of the event-loop model.  Rejections of the `getPage` awaited
inside `calculatePageDimensions` are not modelled (that rejection would
escape `handleResize` as an unhandled promise rejection; no claim concerns
it), so a `calcLoop` resume always proceeds. -/
def step (st : MState) (e : Event) : MState :=
  match e with
  | .resize w h => handleResize st w h
  | .visible p =>
      if (st.pages.getD p defaultPage).rendered = true then st
      else callRenderPage st p
  | .resumeTask i ok =>
    match st.tasks[i]? with
    | none => st
    | some t =>
      let st0 := { st with tasks := st.tasks.eraseIdx i }
      match t with
      | .calcLoop j =>
          let st1 := calcPageBody st0 j
          if j + 1 < st1.pages.length then
            { st1 with tasks := st1.tasks ++ [Pending.calcLoop (j + 1)] }
          else st1
      | .renderFetch p =>
          if ok then
            { renderFetchBody st0 p with
                tasks := st0.tasks ++ [Pending.renderRaster p] }
          else
            { st0 with
                errorLog := st0.errorLog ++ [(st0.pages.getD p defaultPage).pageNum] }
      | .renderRaster p =>
          if ok then
            { st0 with
                pages := st0.pages.set p
                  { st0.pages.getD p defaultPage with rendered := true } }
          else
            { st0 with
                errorLog := st0.errorLog ++ [(st0.pages.getD p defaultPage).pageNum] }

/-- Run a sequence of scheduler events. -/
def run (st : MState) (es : List Event) : MState := es.foldl step st

/-- Number of rasterizations currently in flight for page index `p`:
pending `renderPage` continuations that have already invoked `page.render`
and are awaiting its promise. -/
def inFlight (st : MState) (p : ℕ) : ℕ :=
  st.tasks.count (Pending.renderRaster p)

/-- A one-page document (natural size 600×800) whose session is open, whose
initial layout pass has completed at container width 1000
(`scale = (1000 × 0.9) / 600 = 3/2`, display 900×1200), and whose canvas has
mounted but has not been drawn yet. -/
def mountedPage : PageState :=
  { pageNum := 1, canvas := some ⟨0, 0, 0, 0⟩, rendered := false,
    height := 1200, width := 900, scale := 3 / 2,
    actualHeight := 800, actualWidth := 600 }

/-- Viewer state containing `mountedPage`; see `mountedPage`. -/
def mountedState : MState :=
  { docOpen := true, containerWidth := 1000, containerHeight := 800,
    naturalSizes := [(600, 800)], pages := [mountedPage], tasks := [],
    rasterizeCalls := 0, errorLog := [] }

/-- State of `mountedPage` after a completed render: `rendered = true` and the canvas
buffer sized at `renderScale = (3/2) × 2 = 3` (buffer 1800×2400, CSS size
900×1200). -/
def renderedPage : PageState :=
  { mountedPage with rendered := true, canvas := some ⟨1800, 2400, 900, 1200⟩ }

/-- State `mountedState` after its page has been fully rendered. -/
def renderedState : MState :=
  { mountedState with pages := [renderedPage] }

/-- State `mountedState` with one `renderPage` call past its guard, suspended at
`await getPage` for page index 0. -/
def fetchPendingState : MState :=
  { mountedState with tasks := [Pending.renderFetch 0] }

/-- Two visibility triggers for page 0 in quick succession: both run
`renderPage`'s guard (both pass, `rendered` still false), then both
`getPage` promises resolve before either rasterization completes. -/
def dupTrace : List Event :=
  [Event.visible 0, Event.visible 0,
   Event.resumeTask 0 true, Event.resumeTask 0 true]

/-- A container resize arriving while a rasterization is in flight: page 0
starts rendering at the width-1000 layout (scale 3/2), the container
resizes to width 500 and the layout pass completes (scale 3/4) while the
rasterization is still pending, then the rasterization completes. -/
def staleTrace : List Event :=
  [Event.visible 0, Event.resumeTask 0 true,
   Event.resize 500 800, Event.resumeTask 1 true,
   Event.resumeTask 0 true]

/-- The viewer state after `staleTrace`. -/
def staleFinal : MState := run mountedState staleTrace

/-- State of `mountedPage` once the in-flight `renderPage` has sized the canvas for
the width-1000 layout: buffer `600×3 = 1800` by `800×3 = 2400`, CSS size
900×1200. -/
def sizedPage : PageState :=
  { pageNum := 1, canvas := some ⟨1800, 2400, 900, 1200⟩,
    rendered := false, height := 1200, width := 900, scale := 3 / 2,
    actualHeight := 800, actualWidth := 600 }

/-- State of `sizedPage` after the width-500 layout pass: scale 3/4, display
450×600; `rendered` is false (the render is still in flight), so the layout
pass neither clears the flag nor schedules a re-render, and the canvas
still holds the width-1000 buffer. -/
def relaidPage : PageState :=
  { sizedPage with height := 600, width := 450, scale := 3 / 4 }

/-- State of `relaidPage` after the in-flight rasterization completes:
`rendered = true`, yet the canvas buffer (1800×2400, CSS 900×1200) belongs
to the superseded width-1000 layout. -/
def stalePage : PageState :=
  { relaidPage with rendered := true }

/-- Intermediate state of `staleTrace`: rasterization of page 0 in flight,
canvas sized for the width-1000 layout. -/
def rasterInFlightState : MState :=
  { mountedState with
      pages := [sizedPage], tasks := [Pending.renderRaster 0],
      rasterizeCalls := 1 }

/-- Intermediate state of `staleTrace`: the resize to width 500 has been
stored and a layout pass is pending, the rasterization still in flight. -/
def resizedState : MState :=
  { rasterInFlightState with
      containerWidth := 500,
      tasks := [Pending.renderRaster 0, Pending.calcLoop 0] }

/-- Intermediate state of `staleTrace`: the layout pass has completed at
width 500 while the rasterization is still in flight. -/
def relaidState : MState :=
  { resizedState with pages := [relaidPage], tasks := [Pending.renderRaster 0] }

/-- Final state of `staleTrace`: rendered, but with a stale buffer. -/
def staleState : MState :=
  { relaidState with pages := [stalePage], tasks := [] }

end HQ

namespace Obs

/-!
Model of `setupIntersectionObservers`/`onDestroy`, identical in both
variants (`src/routes/+page.svelte` lines 117–142 and 148–150; unnamed
variant lines 164–189 and 199–204).  Every `IntersectionObserver` ever
constructed is kept in `created`, tagged with the ordinal of the setup call
that constructed it (`gen`) and whether it is currently observing its page
element (`observing`).  In the source, an observer constructed for a page
whose placeholder element is not found is never passed an element to
observe and is not pushed into the `observers` array, so it never fires and
is never (and never needs to be) disconnected; it is recorded here with
`observing := false`.  The `observers` array of the source is exactly the
observers of the current generation with `observing := true`.
A visibility callback can fire only through an observer that is currently
observing — `observer.disconnect()` stops all callbacks.
-/

/-- One `IntersectionObserver` as constructed on lines 122–134: it targets a
single page (keyed by 1-based `data-page` number), remembers which setup
call created it, and is either observing its element or disconnected. -/
structure Observer where
  page : ℕ
  gen : ℕ
  observing : Bool
  deriving DecidableEq, Repr

/-- All observers constructed so far, plus the number of setup calls made. -/
structure ObsState where
  created : List Observer
  gen : ℕ
  deriving DecidableEq, Repr

/-- Model of `setupIntersectionObservers` (lines 117–142): first
`observers.forEach((observer) => observer.disconnect()); observers = []`
(lines 118–119) — after which no previously constructed observer is
observing anything — then one fresh `IntersectionObserver` per page
(lines 121–141), which starts observing its placeholder exactly when
`containerRef?.querySelector('[data-page="..."]')` finds it
(`elementMounted`). -/
def setupIntersectionObservers (pageNums : List ℕ) (elementMounted : ℕ → Bool)
    (s : ObsState) : ObsState :=
  let old := s.created.map fun o => { o with observing := false }
  let g := s.gen + 1
  let fresh := pageNums.map fun p => Observer.mk p g (elementMounted p)
  { created := old ++ fresh, gen := g }

/-- Model of `onDestroy` (lines 148–150): `observers.forEach((o) => o.disconnect())`.
(Observers outside the current `observers` array are already not
observing.) -/
def teardown (s : ObsState) : ObsState :=
  { s with created := s.created.map fun o => { o with observing := false } }

/-- Number of live observers that would deliver a visibility callback for
page `p`: constructed, currently observing, and targeting `p`. -/
def liveObserversFor (s : ObsState) (p : ℕ) : ℕ :=
  s.created.countP fun o => o.observing && o.page == p

/-- Whether any visibility callback can still fire for page `p`. -/
def canFire (s : ObsState) (p : ℕ) : Bool :=
  s.created.any fun o => o.observing && o.page == p

/-- An observer state after one earlier setup call over a two-page document:
both generation-1 observers are still observing. -/
def obsDemoState : ObsState :=
  { created := [Observer.mk 1 1 true, Observer.mk 2 1 true], gen := 1 }

end Obs

namespace HQ

/-- Claim C4 (counterexample): the fit-to-width scenario of the claim is false
on the code.  At natural size 600×800, container width 1000 and width-ratio
0.9, `calculatePageDimensions` computes `scale = (1000 × 0.9) / 600 = 3/2`
with display size 900×1200 — not scale 0.9 with display size 540×720 — and
at container width 1001 the computed display height is 6006/5, which differs
from its nearest integer, so the output dimensions are not rounded. -/
theorem layoutPage_spec_scenario_refuted :
    layoutPage 1000 600 800 ≠ ((9 : ℚ) / 10, (540 : ℚ), (720 : ℚ)) ∧
    (layoutPage 1001 600 800).2.2 = 6006 / 5 ∧
    (jsRound (6006 / 5) : ℚ) ≠ 6006 / 5 := by
  refine ⟨?_, ?_, ?_⟩ <;>
    norm_num [layoutPage, WIDTH_RATIO, jsRound, Prod.ext_iff]

/-- Claim C4 (amended): under the fit-to-width policy, for every page with
positive natural width and every positive container width,
`scale = (containerWidth × widthRatio) / naturalWidth`, the display width is
exactly `containerWidth × widthRatio`, the display height is
`naturalHeight × scale`, with no rounding applied; in particular, for
natural size 600×800, container width 1000 and width-ratio 0.9, the scale
is 3/2 and the display size is 900×1200. -/
theorem layoutPage_fit_to_width (cw nw nh : ℚ) (hnw : 0 < nw) (_hcw : 0 < cw) :
    (layoutPage cw nw nh).1 = cw * WIDTH_RATIO / nw ∧
    (layoutPage cw nw nh).2.1 = cw * WIDTH_RATIO ∧
    (layoutPage cw nw nh).2.2 = nh * (cw * WIDTH_RATIO / nw) ∧
    layoutPage 1000 600 800 = (3 / 2, 900, 1200) := by
  refine ⟨rfl, ?_, rfl, by norm_num [layoutPage, WIDTH_RATIO, Prod.ext_iff]⟩
  show nw * (cw * WIDTH_RATIO / nw) = cw * WIDTH_RATIO
  rw [mul_comm]
  exact div_mul_cancel₀ _ (ne_of_gt hnw)

/-- Witness for `layoutPage_fit_to_width` at the spec's scenario inputs. -/
theorem layoutPage_fit_to_width_witness :
    (0 : ℚ) < 600 ∧ (0 : ℚ) < 1000 ∧
    ((layoutPage 1000 600 800).1 = 1000 * WIDTH_RATIO / 600 ∧
     (layoutPage 1000 600 800).2.1 = 1000 * WIDTH_RATIO ∧
     (layoutPage 1000 600 800).2.2 = 800 * (1000 * WIDTH_RATIO / 600) ∧
     layoutPage 1000 600 800 = (3 / 2, 900, 1200)) :=
  ⟨by norm_num, by norm_num,
   layoutPage_fit_to_width 1000 600 800 (by norm_num) (by norm_num)⟩

end HQ

namespace Simple

/-- Claim C5: under the fit-with-cap policy, for every page with positive
natural width the computed scale equals
`min(maxWidth / naturalWidth, maxScaleFactor)` with `maxWidth = 1000` and
`maxScaleFactor = 1.5`, so it never exceeds 1.5; in particular, for natural
width 2000 the scale is 1/2. -/
theorem pageScale_fit_with_cap (nw : ℚ) (_h : 0 < nw) :
    pageScale nw = min (1000 / nw) (3 / 2) ∧
    pageScale nw ≤ 3 / 2 ∧
    pageScale 2000 = 1 / 2 :=
  ⟨rfl, min_le_right _ _, by norm_num [pageScale, MAX_WIDTH, min_def]⟩

/-- Witness for `pageScale_fit_with_cap` at natural width 2000. -/
theorem pageScale_fit_with_cap_witness :
    (0 : ℚ) < 2000 ∧
    (pageScale 2000 = min (1000 / 2000) (3 / 2) ∧
     pageScale 2000 ≤ 3 / 2 ∧
     pageScale 2000 = 1 / 2) :=
  ⟨by norm_num, pageScale_fit_with_cap 2000 (by norm_num)⟩

/-- Claim C10: in the simple (fit-with-cap) variant the computed layout is
independent of the container: two runs differing only in container width
produce identical scale, width and height, the scale depends only on the
page's natural width and the constants `MAX_WIDTH = 1000` and `1.5`, and a
container-size-change notification never reaches the viewer (no
`ResizeObserver` is registered), so its state is unchanged. -/
theorem layout_container_independent :
    (∀ w1 w2 nw nh : ℚ,
       layoutUnderContainer w1 nw nh = layoutUnderContainer w2 nw nh) ∧
    (∀ (σ : Type) (st : σ) (w : ℚ), handleContainerResize st w = st) ∧
    (∀ nw nh w : ℚ,
       (layoutUnderContainer w nw nh).1 = min (MAX_WIDTH / nw) (3 / 2)) :=
  ⟨fun _ _ _ _ => rfl, fun _ _ _ => rfl, fun _ _ _ => rfl⟩

end Simple

/-- Claim C6: the load-progress callback reports
`Math.round((loaded / total) * 100)` when the total is known and positive,
leaves the progress at its previous value when the total is zero or unknown
(never dividing by zero), and in particular reports 25 for
`loaded = 50, total = 200`. -/
theorem loadingProgress_correct (prev : ℤ) (loaded total : ℚ) :
    (0 < total →
       loadingProgressUpdate prev loaded total = jsRound (loaded / total * 100)) ∧
    (¬ 0 < total → loadingProgressUpdate prev loaded total = prev) ∧
    loadingProgressUpdate prev 50 200 = 25 := by
  refine ⟨fun h => if_pos h, fun h => if_neg h, ?_⟩
  calc loadingProgressUpdate prev 50 200
      = jsRound (50 / 200 * 100) := if_pos (by norm_num)
    _ = 25 := by norm_num [jsRound]

/-- Witness for `loadingProgress_correct`: the known-total case at
`loaded = 50, total = 200` and the unknown-total case at `total = 0`. -/
theorem loadingProgress_correct_witness :
    (0 : ℚ) < 200 ∧
    loadingProgressUpdate 7 50 200 = jsRound (50 / 200 * 100) ∧
    ¬ (0 : ℚ) < 0 ∧
    loadingProgressUpdate 7 50 0 = 7 :=
  ⟨by norm_num, (loadingProgress_correct 7 50 200).1 (by norm_num),
   by norm_num, (loadingProgress_correct 7 50 0).2.1 (by norm_num)⟩

namespace HQ

/-- Claim C2: `renderPage` returns immediately with no error and no side
effect when there is no open document session, when the page is already
rendered, or when no canvas is attached; in particular calling it twice in
immediate succession for an already-rendered page (also via two visibility
triggers) leaves the state — including the rasterize-call count —
untouched, so no second rasterize invocation is issued. -/
theorem renderPage_guard_noop (st : MState) (p : ℕ)
    (h : st.docOpen = false ∨ (st.pages.getD p defaultPage).rendered = true ∨
         (st.pages.getD p defaultPage).canvas = none) :
    callRenderPage st p = st ∧
    callRenderPage (callRenderPage st p) p = st ∧
    run st [Event.visible p, Event.visible p] = st ∧
    (run st [Event.visible p, Event.visible p]).rasterizeCalls
      = st.rasterizeCalls := by
  have h1 : callRenderPage st p = st := if_pos h
  have h2 : step st (Event.visible p) = st := by
    show (if (st.pages.getD p defaultPage).rendered = true then st
          else callRenderPage st p) = st
    by_cases hr : (st.pages.getD p defaultPage).rendered = true
    · rw [if_pos hr]
    · rw [if_neg hr]; exact h1
  have h3 : run st [Event.visible p, Event.visible p] = st := by
    show step (step st (Event.visible p)) (Event.visible p) = st
    rw [h2, h2]
  exact ⟨h1, by rw [h1]; exact h1, h3, by rw [h3]⟩

/-- Witness for `renderPage_guard_noop`: a fully rendered one-page viewer. -/
theorem renderPage_guard_noop_witness :
    (renderedState.docOpen = false ∨
     (renderedState.pages.getD 0 defaultPage).rendered = true ∨
     (renderedState.pages.getD 0 defaultPage).canvas = none) ∧
    (callRenderPage renderedState 0 = renderedState ∧
     callRenderPage (callRenderPage renderedState 0) 0 = renderedState ∧
     run renderedState [Event.visible 0, Event.visible 0] = renderedState ∧
     (run renderedState [Event.visible 0, Event.visible 0]).rasterizeCalls
       = renderedState.rasterizeCalls) :=
  ⟨by decide, renderPage_guard_noop renderedState 0 (by decide)⟩

/-- Claim C3: the at-most-one-in-flight-rasterization-per-page invariant is
violated by the code.  From a mounted, laid-out, not-yet-rendered page, two
visibility triggers in quick succession both pass `renderPage`'s
`rendered`-flag guard (the flag only becomes true after the render
completes), and once both `getPage` promises resolve, two rasterize calls
for the same page are simultaneously in flight. -/
theorem renderPage_duplicate_inflight :
    inFlight (run mountedState dupTrace) 0 = 2 ∧
    (run mountedState dupTrace).rasterizeCalls = 2 := by decide

/-- Claim C7: when fetching the page (`getPage` rejects) or rasterizing
(`page.render` rejects) fails, `renderPage`'s `catch` completes normally:
the page list — in particular the `rendered` flag and every other page —
is untouched, the failure is logged with the page's number, the failed
continuation just disappears with no retry scheduled, no rasterize call is
added, and the viewer (document session, container measurements) keeps
running. -/
theorem renderPage_failure_contained (st : MState) (i p : ℕ) (t : Pending)
    (ht : st.tasks[i]? = some t)
    (hk : t = Pending.renderFetch p ∨ t = Pending.renderRaster p) :
    (step st (Event.resumeTask i false)).pages = st.pages ∧
    (step st (Event.resumeTask i false)).errorLog
      = st.errorLog ++ [(st.pages.getD p defaultPage).pageNum] ∧
    (step st (Event.resumeTask i false)).tasks = st.tasks.eraseIdx i ∧
    (step st (Event.resumeTask i false)).rasterizeCalls = st.rasterizeCalls ∧
    (step st (Event.resumeTask i false)).docOpen = st.docOpen ∧
    (step st (Event.resumeTask i false)).containerWidth = st.containerWidth := by
  rcases hk with rfl | rfl <;> simp [step, ht]

/-- Witness for `renderPage_failure_contained`: a pending page fetch for
page index 0 whose promise rejects. -/
theorem renderPage_failure_contained_witness :
    fetchPendingState.tasks[0]? = some (Pending.renderFetch 0) ∧
    ((step fetchPendingState (Event.resumeTask 0 false)).pages
       = fetchPendingState.pages ∧
     (step fetchPendingState (Event.resumeTask 0 false)).errorLog
       = fetchPendingState.errorLog
         ++ [(fetchPendingState.pages.getD 0 defaultPage).pageNum] ∧
     (step fetchPendingState (Event.resumeTask 0 false)).tasks
       = fetchPendingState.tasks.eraseIdx 0 ∧
     (step fetchPendingState (Event.resumeTask 0 false)).rasterizeCalls
       = fetchPendingState.rasterizeCalls ∧
     (step fetchPendingState (Event.resumeTask 0 false)).docOpen
       = fetchPendingState.docOpen ∧
     (step fetchPendingState (Event.resumeTask 0 false)).containerWidth
       = fetchPendingState.containerWidth) :=
  ⟨by decide,
   renderPage_failure_contained fetchPendingState 0 0 (Pending.renderFetch 0)
     (by decide) (Or.inl rfl)⟩

/-- Claim C1: the `rendered == true ⇒ buffer matches current dimensions`
invariant is violated by the code.  In `staleTrace`, page 0 starts
rendering at the width-1000 layout (scale 3/2, buffer 1800×2400, CSS size
900×1200); a resize to width 500 recomputes the layout (scale 3/4, display
450×600) while the rasterization is in flight — and because `rendered` is
false at that moment, the layout pass neither clears the flag nor
re-invokes the scheduler for the page; when the rasterization then
completes, `rendered` becomes true although the surface's buffer (1800 ≠
600 × (3/4 × 2) = 900) and CSS size (900 ≠ 450) no longer match the page's
current dimensions, and no further render is pending. -/
theorem resize_midrender_stale_buffer :
    staleFinal.pages = [stalePage] ∧
    staleFinal.tasks = [] ∧
    stalePage.rendered = true ∧
    stalePage.scale = 3 / 4 ∧
    stalePage.width = 450 ∧
    stalePage.height = 600 ∧
    stalePage.canvas = some ⟨1800, 2400, 900, 1200⟩ ∧
    (1800 : ℚ) ≠ stalePage.actualWidth * (stalePage.scale * QUALITY_SCALE) ∧
    (900 : ℚ) ≠ stalePage.width := by
  have h1 : step mountedState (Event.visible 0) = fetchPendingState := by
    norm_num [step, callRenderPage, mountedState, mountedPage,
      fetchPendingState, List.getD]
    decide
  have h2 : step fetchPendingState (Event.resumeTask 0 true)
      = rasterInFlightState := by
    norm_num [step, renderFetchBody, fetchPendingState, mountedState,
      mountedPage, rasterInFlightState, sizedPage, List.getD, QUALITY_SCALE]
  have h3 : step rasterInFlightState (Event.resize 500 800) = resizedState := by
    norm_num [step, handleResize, rasterInFlightState, resizedState,
      mountedState]
  have h4 : step resizedState (Event.resumeTask 1 true) = relaidState := by
    norm_num [step, calcPageBody, callRenderPage, layoutPage,
      rasterInFlightState, resizedState, relaidState, sizedPage, relaidPage,
      mountedState, mountedPage, List.getD, WIDTH_RATIO]
  have h5 : step relaidState (Event.resumeTask 0 true) = staleState := by
    norm_num [step, rasterInFlightState, resizedState, relaidState,
      staleState, sizedPage, relaidPage, stalePage, mountedState, mountedPage,
      List.getD]
  have hfin : staleFinal = staleState := by
    show step (step (step (step (step mountedState (Event.visible 0))
      (Event.resumeTask 0 true)) (Event.resize 500 800))
      (Event.resumeTask 1 true)) (Event.resumeTask 0 true) = staleState
    rw [h1, h2, h3, h4, h5]
  rw [hfin]
  refine ⟨rfl, rfl, rfl, rfl, rfl, rfl, rfl, ?_, ?_⟩ <;>
    norm_num [stalePage, relaidPage, sizedPage, QUALITY_SCALE]

/-- Claim C8: a container-size-change notification reporting width 0 (the
value an unmeasured or absent container reports, and the initial value of
`state.containerWidth`) makes the layout pass a no-op: every page keeps its
previous `width`, `height` and `scale`, no layout continuation is started
(so no scale is ever computed from the zero width), and nothing else in the
viewer changes apart from the stored container measurements. -/
theorem resize_zero_width_noop (st : MState) (h : ℚ) :
    (step st (Event.resize 0 h)).pages = st.pages ∧
    (step st (Event.resize 0 h)).tasks = st.tasks ∧
    (step st (Event.resize 0 h)).rasterizeCalls = st.rasterizeCalls ∧
    (step st (Event.resize 0 h)).errorLog = st.errorLog ∧
    (step st (Event.resize 0 h)).docOpen = st.docOpen := by
  simp [step, handleResize]

end HQ

namespace Obs

/-- Claim C9: visibility-tracker setup is idempotent and teardown silences
it.  After any `setupIntersectionObservers` call, every observer that is
still observing belongs to the new generation (all previously created
observers were disconnected first), and — the page numbers being distinct —
at most one live observer targets any given page, so no page can receive
duplicate visibility callbacks from two observer generations; after
`onDestroy`'s teardown no observer is live, so no visibility callback can
fire afterwards. -/
theorem setup_idempotent_teardown_silent (s : ObsState) (pageNums : List ℕ)
    (elems : ℕ → Bool) (hnd : pageNums.Nodup) :
    (∀ o ∈ (setupIntersectionObservers pageNums elems s).created,
       o.observing = true → o.gen = s.gen + 1) ∧
    (∀ p, liveObserversFor (setupIntersectionObservers pageNums elems s) p ≤ 1) ∧
    (∀ s2 : ObsState, ∀ p, canFire (teardown s2) p = false) := by
  refine ⟨?_, ?_, ?_⟩
  · intro o ho hobs
    simp only [setupIntersectionObservers, List.mem_append, List.mem_map] at ho
    rcases ho with ⟨o0, _, rfl⟩ | ⟨q, _, rfl⟩
    · simp at hobs
    · rfl
  · intro p
    simp only [liveObserversFor, setupIntersectionObservers,
      List.countP_append, List.countP_map]
    have hzero : (s.created.map fun o => { o with observing := false }).countP
        (fun o => o.observing && o.page == p) = 0 := by
      rw [List.countP_eq_zero]
      intro a ha
      rcases List.mem_map.1 ha with ⟨o0, _, rfl⟩
      simp
    rw [List.countP_map] at hzero
    rw [hzero, Nat.zero_add]
    have hmono : pageNums.countP
        ((fun o => o.observing && o.page == p) ∘
          fun q => Observer.mk q (s.gen + 1) (elems q)) ≤ pageNums.countP (· == p) := by
      apply List.countP_mono_left
      intro a _ h
      have h2 : elems a = true ∧ a = p := by simpa using h
      simp [h2.2]
    exact le_trans hmono (List.nodup_iff_count_le_one.1 hnd p)
  · intro s2 p
    simp [canFire, teardown, Function.comp]

end Obs

/-- Witness for `Obs.setup_idempotent_teardown_silent`: re-setup over a
two-page document whose generation-1 observers are still observing. -/
theorem setup_idempotent_teardown_silent_witness :
    ([1, 2] : List ℕ).Nodup ∧
    ((∀ o ∈ (Obs.setupIntersectionObservers [1, 2] (fun _ => true)
               Obs.obsDemoState).created,
        o.observing = true → o.gen = Obs.obsDemoState.gen + 1) ∧
     (∀ p, Obs.liveObserversFor
        (Obs.setupIntersectionObservers [1, 2] (fun _ => true)
          Obs.obsDemoState) p ≤ 1) ∧
     (∀ s2 : Obs.ObsState, ∀ p, Obs.canFire (Obs.teardown s2) p = false)) :=
  ⟨by decide,
   Obs.setup_idempotent_teardown_silent Obs.obsDemoState [1, 2]
     (fun _ => true) (by decide)⟩
